import Mathlib

/-!
Shallow embedding of the two React components of this repository —
OrderList (src/unnamed/part_000) and UserProfile
(src/src/components/UserProfile.tsx) — together with a small
operational model of the React render/effect/cleanup lifecycle, and
proofs of the behavioural properties claimed for them.

JavaScript values are embedded as follows: numbers used as money or
counters become Int, strings become String, absent values (null)
become Option, and string truthiness is emptiness of the string.
-/

/-! ## HTTP request model -/

/-- HTTP methods. The components only ever use GET and DELETE, but the
type offers the other common verbs so that the endpoint-enumeration
theorem is not true by construction of the type. -/
inductive Method where
  | GET
  | POST
  | PUT
  | DELETE
deriving DecidableEq, Repr

/-- The structured paths of requests against api.example.com, plus a
catch-all constructor for any other path, so that restriction to the
five documented endpoints is a fact about the code, not about the
type. -/
inductive ApiPath where
  | orders
  | orderId (id : Int)
  | ordersSearch (q : String)
  | userId (id : String)
  | itemId (id : String)
  | otherPath (p : String)
deriving DecidableEq, Repr

/-- An HTTP request issued by a component. -/
structure Request where
  method : Method
  path : ApiPath
deriving DecidableEq, Repr

/-- GET /orders — issued by the OrderList initial-fetch effect, the
polling interval, and (with a query) the search box. -/
def getOrdersReq : Request := ⟨Method.GET, ApiPath.orders⟩

/-- The five endpoints documented for the assumed REST API:
GET /orders, DELETE /orders/:id, GET /orders/search, GET /users/:id,
DELETE /items/:id. -/
def allowedEndpoint : Request → Bool
  | ⟨Method.GET, ApiPath.orders⟩ => true
  | ⟨Method.DELETE, ApiPath.orderId _⟩ => true
  | ⟨Method.GET, ApiPath.ordersSearch _⟩ => true
  | ⟨Method.GET, ApiPath.userId _⟩ => true
  | ⟨Method.DELETE, ApiPath.itemId _⟩ => true
  | _ => false

/-! ## Data model: the loosely-typed JSON payloads -/

/-- A sub-item of an order, as rendered by OrderList
(item.name, item.price, item.qty). -/
structure OrderItem where
  name : String
  price : Int
  qty : Int
deriving DecidableEq, Repr

/-- An order object from GET /orders, with the fields OrderList
reads: id, customerName, price, quantity, status, thumbnail, memo,
items, receiptUrl. -/
structure Order where
  id : Int
  customerName : String
  price : Int
  quantity : Int
  status : String
  thumbnail : String
  memo : String
  items : List OrderItem
  receiptUrl : String
deriving DecidableEq, Repr

/-- An item of a user, as read by UserProfile (item.id, item.name,
item.price, item.isActive). handleDelete annotates itemId as string,
so ids are embedded as String. -/
structure Item where
  id : String
  name : String
  price : Int
  isActive : Bool
deriving DecidableEq, Repr

/-- A user object from GET /users/:id, with the fields UserProfile
reads: firstName, lastName, email, birthDate, status, bio, items.
Fields that may be absent or empty are read through string
truthiness; absence is embedded as the empty string. -/
structure User where
  firstName : String
  lastName : String
  email : String
  birthDate : String
  status : String
  bio : String
  items : List Item
deriving DecidableEq, Repr

/-! ## OrderList: pure helper functions -/

/-- OrderList.getStatusColor, translated branch for branch from the
source: four if-statements compared with ==, the fourth guarding
status == "pending" a second time with value "yellow", and a final
return "gray". -/
def getStatusColor (status : String) : String :=
  if status = "pending" then "orange"
  else if status = "completed" then "green"
  else if status = "cancelled" then "red"
  else if status = "pending" then "yellow"
  else "gray"

/-- The total computation inside the OrderList initial-fetch effect:
  let t = 0; for (i = 0; i < data.length; i++) t = t + data[i].price * data[i].quantity
embedded as a left fold over the list. -/
def computeTotal (data : List Order) : Int :=
  data.foldl (fun t o => t + o.price * o.quantity) 0

/-- Helper for formatPrice: given the digit characters in reverse
order and the number of characters already emitted in the current
group, insert a comma after every third digit that is followed by a
further digit — the effect of the regex
  replace(\B(?=(\d{3})+(?!\d)), ",")
on a digit string. -/
def commaGroupsRev : List Char → Nat → List Char
  | [], _ => []
  | c :: cs, n =>
    if n + 1 = 3 ∧ cs ≠ [] then c :: ',' :: commaGroupsRev cs 0
    else c :: commaGroupsRev cs (n + 1)

/-- Comma-separate the thousands groups of a digit string. -/
def commaSeparate (s : String) : String :=
  String.mk ((commaGroupsRev s.toList.reverse 0).reverse)

/-- OrderList.formatPrice: price.toString() with thousands separators
inserted by the regex, with "원" appended. On a negative number the
regex leaves the sign untouched (the sign-to-digit transition is a
word boundary), so the digits alone are grouped. -/
def formatPrice (price : Int) : String :=
  if price < 0 then "-" ++ commaSeparate (toString (-price)) ++ "원"
  else commaSeparate (toString price) ++ "원"

/-! ## Rendered output model

The JSX each component returns is embedded as a list of nodes holding
the dynamic data the markup carries. A dangerouslySetInnerHTML div is
the rawHtml node: its string is handed to the browser as markup. -/

/-- A rendered node carrying dynamic data. -/
inductive Node where
  | text (s : String)
  | image (src : String)
  | rawHtml (html : String)
  | link (href : String) (label : String)
  | button (label : String)
  | textInput (placeholder : String)
deriving DecidableEq, Repr

/-- The strings a node list hands to dangerouslySetInnerHTML, in
order. -/
def rawHtmls (nodes : List Node) : List String :=
  nodes.filterMap (fun n =>
    match n with
    | Node.rawHtml h => some h
    | _ => none)

/-- The two spans of one sub-item row inside an order card:
item.name and item.price * item.qty with "원". -/
def orderItemRow (it : OrderItem) : List Node :=
  [Node.text it.name, Node.text (toString (it.price * it.qty) ++ "원")]

/-- One order card of the OrderList render: customerName, formatted
price, quantity, thumbnail, the memo injected through dangerouslySetInnerHTML,
the sub-item rows, and the receipt link. The styling (status colour
via getStatusColor, selection border) carries no dynamic data nodes. -/
def renderOrderCard (o : Order) : List Node :=
  [Node.text o.customerName,
   Node.text (formatPrice o.price),
   Node.text (toString o.quantity ++ "개"),
   Node.image o.thumbnail,
   Node.rawHtml o.memo]
  ++ (o.items.map orderItemRow).flatten
  ++ [Node.link o.receiptUrl "영수증"]

/-! ## Effect declarations

A syntactic summary of each useEffect call: its dependency list
(none = no dependency array at all), whether its body starts a fetch,
whether it registers a setInterval timer, and whether it returns a
cleanup function. -/

/-- One useEffect call site. -/
structure EffectDecl where
  deps : Option (List String)
  startsFetch : Bool
  registersInterval : Bool
  hasCleanup : Bool
deriving DecidableEq, Repr

/-- OrderList declares two effects: the initial-fetch effect with no
dependency array and no cleanup, and the polling effect with an empty
dependency array that registers a 1-second interval and returns no
cleanup. -/
def orderListEffects : List EffectDecl :=
  [{ deps := none, startsFetch := true, registersInterval := false, hasCleanup := false },
   { deps := some [], startsFetch := false, registersInterval := true, hasCleanup := false }]

/-- UserProfile declares two effects: the user fetch with an empty
dependency array, and a console.log effect with no dependency array;
neither registers a timer or returns a cleanup. -/
def userProfileEffects : List EffectDecl :=
  [{ deps := some [], startsFetch := true, registersInterval := false, hasCleanup := false },
   { deps := none, startsFetch := false, registersInterval := false, hasCleanup := false }]

/-- The two components of the repository. -/
inductive Component where
  | orderList
  | userProfile
deriving DecidableEq, Repr

/-- The useEffect call sites of each component. -/
def effectsOf : Component → List EffectDecl
  | Component.orderList => orderListEffects
  | Component.userProfile => userProfileEffects

/-- A component polls via an uncancelled interval when some effect
registers an interval and returns no cleanup. -/
def pollsViaUncancelledInterval (c : Component) : Bool :=
  (effectsOf c).any (fun e => e.registersInterval && !e.hasCleanup)

/-- A component re-subscribes a data fetch on every render when some
effect with no dependency array starts a fetch. -/
def resubscribesFetchEveryRender (c : Component) : Bool :=
  (effectsOf c).any (fun e => e.deps.isNone && e.startsFetch)

/-! ## Fetch call sites

Each fetch(...) promise chain in the two components, with whether any
handler for rejection (a .catch, a second .then argument, or a
try/catch around an await) is attached. -/

/-- One fetch call site of the source. -/
structure FetchCall where
  component : Component
  site : String
  method : Method
  hasRejectionHandler : Bool
deriving DecidableEq, Repr

/-- All six fetch call sites of the repository. None of the promise
chains attaches a rejection handler. -/
def allFetchCalls : List FetchCall :=
  [{ component := Component.orderList, site := "initial-fetch effect",
     method := Method.GET, hasRejectionHandler := false },
   { component := Component.orderList, site := "polling interval callback",
     method := Method.GET, hasRejectionHandler := false },
   { component := Component.orderList, site := "handleDelete",
     method := Method.DELETE, hasRejectionHandler := false },
   { component := Component.orderList, site := "search input onChange",
     method := Method.GET, hasRejectionHandler := false },
   { component := Component.userProfile, site := "user fetch effect",
     method := Method.GET, hasRejectionHandler := false },
   { component := Component.userProfile, site := "handleDelete",
     method := Method.DELETE, hasRejectionHandler := false }]

/-! ## OrderList: state and lifecycle

The component state is the tuple of its useState hooks. The world adds
the React lifecycle phase, the number of live interval timers, and the
log of requests issued so far. Steps are labelled events: mounting
(which renders and then runs both effects, since on the first render
every effect runs), re-rendering (which re-runs exactly the effects
whose dependencies changed: the dependency-less initial-fetch effect
re-runs, the empty-dependency polling effect does not), resolution or
rejection of each kind of in-flight fetch, an interval tick, the two
user interactions, and unmounting (which runs the registered cleanup
functions — there are none, so the interval survives). -/

/-- React lifecycle phase of a component instance. -/
inductive Phase where
  | notMounted
  | mounted
  | unmounted
deriving DecidableEq, Repr

/-- The useState hooks of OrderList: orders, total, loading, error,
selectedId, and the trigger counter (the discarded-value useState). -/
structure OrderListState where
  orders : List Order
  total : Int
  loading : Bool
  error : Option String
  selectedId : Option Int
  trigger : Int
deriving DecidableEq, Repr

/-- Initial hook values of OrderList:
useState([]), useState(0), useState(false), useState(null),
useState(null), useState(0). -/
def initOrderListState : OrderListState :=
  { orders := [], total := 0, loading := false, error := none,
    selectedId := none, trigger := 0 }

/-- An OrderList instance together with its environment: lifecycle
phase, live interval timers, and the requests issued so far. -/
structure OWorld where
  phase : Phase
  state : OrderListState
  activeIntervals : Nat
  issued : List Request
deriving DecidableEq, Repr

/-- The world before the component mounts. -/
def initOWorld : OWorld :=
  { phase := Phase.notMounted, state := initOrderListState,
    activeIntervals := 0, issued := [] }

/-- The events an OrderList instance can undergo. -/
inductive OEvent where
  | mount
  | rerender
  | fetchOrdersResolve (data : List Order)
  | fetchOrdersReject
  | intervalTick
  | pollResolve (data : List Order)
  | pollReject
  | clickOrder (id : Int)
  | searchInput (q : String)
  | searchResolve (data : List Order)
  | searchReject
  | unmount
deriving DecidableEq, Repr

/-- One step of the OrderList lifecycle. Mounting runs both effect
bodies: setLoading(true) and fetch GET /orders from the first, and
setInterval registration from the second; neither returns a cleanup.
Re-rendering re-runs only the first effect (no dependency array).
Resolution of the initial fetch stores the data, the fold total and
loading=false; resolution of a poll or search stores only the data.
Every rejection is a no-op: no chain has a rejection handler. A click
on an order card runs handleDelete: it issues DELETE /orders/:id and
bumps the trigger counter. Unmounting runs no cleanup, so the
interval count is unchanged and ticks stay enabled. -/
def stepO : OEvent → OWorld → Option OWorld
  | OEvent.mount, w =>
    if w.phase = Phase.notMounted then
      some { w with
        phase := Phase.mounted,
        state := { w.state with loading := true },
        issued := w.issued ++ [getOrdersReq],
        activeIntervals := w.activeIntervals + 1 }
    else none
  | OEvent.rerender, w =>
    if w.phase = Phase.mounted then
      some { w with
        state := { w.state with loading := true },
        issued := w.issued ++ [getOrdersReq] }
    else none
  | OEvent.fetchOrdersResolve data, w =>
    some { w with
      state := { w.state with
        orders := data, total := computeTotal data, loading := false } }
  | OEvent.fetchOrdersReject, w => some w
  | OEvent.intervalTick, w =>
    if 0 < w.activeIntervals then
      some { w with issued := w.issued ++ [getOrdersReq] }
    else none
  | OEvent.pollResolve data, w =>
    some { w with state := { w.state with orders := data } }
  | OEvent.pollReject, w => some w
  | OEvent.clickOrder id, w =>
    if w.phase = Phase.mounted then
      some { w with
        issued := w.issued ++ [⟨Method.DELETE, ApiPath.orderId id⟩],
        state := { w.state with trigger := w.state.trigger + 1 } }
    else none
  | OEvent.searchInput q, w =>
    if w.phase = Phase.mounted then
      some { w with issued := w.issued ++ [⟨Method.GET, ApiPath.ordersSearch q⟩] }
    else none
  | OEvent.searchResolve data, w =>
    some { w with state := { w.state with orders := data } }
  | OEvent.searchReject, w => some w
  | OEvent.unmount, w =>
    if w.phase = Phase.mounted then
      some { w with phase := Phase.unmounted }
    else none

/-- Run a list of events from a given world. -/
def runOFrom (w : OWorld) : List OEvent → Option OWorld
  | [] => some w
  | e :: es =>
    match stepO e w with
    | none => none
    | some w1 => runOFrom w1 es

/-- Run a list of events from the initial OrderList world. -/
def runOrderList (evs : List OEvent) : Option OWorld :=
  runOFrom initOWorld evs

/-- The OrderList render: the loading paragraph when loading, one card
per order, the grand total line, and the search input. -/
def renderOrderList (s : OrderListState) : List Node :=
  (if s.loading then [Node.text "로딩중..."] else [])
  ++ (s.orders.map renderOrderCard).flatten
  ++ [Node.text ("총 금액: " ++ formatPrice s.total),
      Node.textInput "주문 검색"]

/-! ## UserProfile: pure helper functions -/

/-- UserProfile.getFullName, translated from the nested
if-statements of the source. userData null is the none case; a falsy
firstName or lastName is the empty string. -/
def getFullName (userData : Option User) : String :=
  match userData with
  | some u =>
    if u.firstName ≠ "" then
      if u.lastName ≠ "" then u.firstName ++ " " ++ u.lastName
      else u.firstName
    else "Unknown"
  | none => "Loading..."

/-- The nested ternary over userData.status in the UserProfile
render. -/
def statusLabel (status : String) : String :=
  if status = "active" then "활성"
  else if status = "inactive" then "비활성"
  else if status = "banned" then "차단됨"
  else "알 수 없음"

/-! ## UserProfile: state and lifecycle -/

/-- The useState hooks of UserProfile: userData, loading, items,
error, count. -/
structure UserProfileState where
  userData : Option User
  loading : Bool
  items : List Item
  error : String
  count : Int
deriving DecidableEq, Repr

/-- Initial hook values of UserProfile: useState(null),
useState(false), useState([]), useState(""), useState(0). -/
def initUserProfileState : UserProfileState :=
  { userData := none, loading := false, items := [], error := "", count := 0 }

/-- UserProfile.handleDelete as a function of the items list the
handler closed over at the render that created it: it issues
DELETE /items/:itemId, awaits it, and then stores the filter of the
captured list keeping the items whose id is not itemId. No other hook
is touched. -/
def handleDelete (captured : List Item) (itemId : String)
    (s : UserProfileState) : List Request × UserProfileState :=
  ([⟨Method.DELETE, ApiPath.itemId itemId⟩],
   { s with items := captured.filter (fun it => it.id ≠ itemId) })

/-- A UserProfile instance together with its environment: the id prop
the fetch URL is built from, the lifecycle phase, and the requests
issued so far. -/
structure UWorld where
  propsId : String
  phase : Phase
  state : UserProfileState
  issued : List Request
deriving DecidableEq, Repr

/-- The world before a UserProfile with the given id prop mounts. -/
def initUWorld (propsId : String) : UWorld :=
  { propsId := propsId, phase := Phase.notMounted,
    state := initUserProfileState, issued := [] }

/-- The events a UserProfile instance can undergo. deleteItem carries
the items list the clicked render had closed over. -/
inductive UEvent where
  | mount
  | rerender
  | fetchUserResolve (data : User)
  | fetchUserReject
  | itemClick
  | deleteItem (captured : List Item) (itemId : String)
  | deleteItemReject
  | addItem (newId : String)
  | unmount
deriving DecidableEq, Repr

/-- One step of the UserProfile lifecycle. Mounting runs both
effects: the first (empty dependency array) sets loading=true and
issues GET /users/:propsId, the second only logs. Re-rendering
re-runs only the logging effect, so it changes nothing. Resolution of
the user fetch stores the data, loading=false and data.items; its
rejection — and the rejection of the delete — is a no-op, since no
handler is attached. An item click bumps count; deleteItem runs
handleDelete over the captured list; the add-item button appends the
fresh item (Math.random id, name 새 아이템, price 0, active) to the
current items. Unmounting runs no cleanup. -/
def stepU : UEvent → UWorld → Option UWorld
  | UEvent.mount, w =>
    if w.phase = Phase.notMounted then
      some { w with
        phase := Phase.mounted,
        state := { w.state with loading := true },
        issued := w.issued ++ [⟨Method.GET, ApiPath.userId w.propsId⟩] }
    else none
  | UEvent.rerender, w =>
    if w.phase = Phase.mounted then some w else none
  | UEvent.fetchUserResolve data, w =>
    some { w with
      state := { w.state with
        userData := some data, loading := false, items := data.items } }
  | UEvent.fetchUserReject, w => some w
  | UEvent.itemClick, w =>
    if w.phase = Phase.mounted then
      some { w with state := { w.state with count := w.state.count + 1 } }
    else none
  | UEvent.deleteItem captured itemId, w =>
    if w.phase = Phase.mounted then
      some { w with
        issued := w.issued ++ (handleDelete captured itemId w.state).1,
        state := (handleDelete captured itemId w.state).2 }
    else none
  | UEvent.deleteItemReject, w => some w
  | UEvent.addItem newId, w =>
    if w.phase = Phase.mounted then
      some { w with
        state := { w.state with
          items := w.state.items ++
            [{ id := newId, name := "새 아이템", price := 0, isActive := true }] } }
    else none
  | UEvent.unmount, w =>
    if w.phase = Phase.mounted then
      some { w with phase := Phase.unmounted }
    else none

/-- Run a list of events from a given UserProfile world. -/
def runUFrom (w : UWorld) : List UEvent → Option UWorld
  | [] => some w
  | e :: es =>
    match stepU e w with
    | none => none
    | some w1 => runUFrom w1 es

/-- Run a list of events from the initial UserProfile world with the
given id prop. -/
def runUserProfile (propsId : String) (evs : List UEvent) : Option UWorld :=
  runUFrom (initUWorld propsId) evs

/-- What the UserProfile render returns: the loading early return,
the error early return, or the profile markup. -/
inductive UPView where
  | loadingView
  | errorView (msg : String)
  | profileView (nodes : List Node)
deriving DecidableEq, Repr

/-- One item row of the UserProfile render: name, price, and the
delete button. -/
def renderItemRow (it : Item) : List Node :=
  [Node.text it.name, Node.text (toString it.price), Node.button "삭제"]

/-- The UserProfile render, translated from the source: an early
return of the loading view when loading is truthy, an early return of
the error view when error is truthy (non-empty), otherwise the
profile: the full name heading and — only when userData is non-null —
email, status label, click count, the bio injected through
dangerouslySetInnerHTML, the item-count heading, the item rows and
the add button. The age paragraph depends on the wall clock and
carries no claim-relevant data, so it is not a node here. -/
def renderUserProfile (s : UserProfileState) : UPView :=
  if s.loading then UPView.loadingView
  else if s.error ≠ "" then UPView.errorView s.error
  else UPView.profileView
    ([Node.text (getFullName s.userData)] ++
      match s.userData with
      | some u =>
        [Node.text ("이메일: " ++ u.email),
         Node.text ("상태: " ++ statusLabel u.status),
         Node.text ("클릭 횟수: " ++ toString s.count),
         Node.rawHtml u.bio,
         Node.text ("아이템 목록 (" ++ toString s.items.length ++ "개)")]
        ++ (s.items.map renderItemRow).flatten
        ++ [Node.button "아이템 추가"]
      | none => [])

/-- The dangerouslySetInnerHTML strings of a UserProfile view: none
on the loading and error early returns. -/
def viewRawHtmls : UPView → List String
  | UPView.profileView nodes => rawHtmls nodes
  | _ => []

/-! ## Concrete sample values

Concrete worlds and payloads used to evaluate the machines on small
inputs. -/

/-- The OrderList world right after mounting. -/
def oWorldMounted : OWorld :=
  { phase := Phase.mounted,
    state := { initOrderListState with loading := true },
    activeIntervals := 1, issued := [getOrdersReq] }

/-- The OrderList world after mounting and one re-render. -/
def oWorldMountedRerendered : OWorld :=
  { oWorldMounted with issued := [getOrdersReq, getOrdersReq] }

/-- The OrderList world after mounting and unmounting. -/
def oWorldMountUnmount : OWorld :=
  { oWorldMounted with phase := Phase.unmounted }

/-- A sample order with no sub-items. -/
def sampleOrder1 : Order :=
  { id := 1, customerName := "김철수", price := 1000, quantity := 2,
    status := "pending", thumbnail := "t1.png", memo := "<b>급함</b>",
    items := [], receiptUrl := "r1" }

/-- A sample order with one sub-item. -/
def sampleOrder2 : Order :=
  { id := 2, customerName := "이영희", price := 300, quantity := 3,
    status := "completed", thumbnail := "t2.png", memo := "memo2",
    items := [{ name := "간식", price := 100, qty := 2 }], receiptUrl := "r2" }

/-- A sample GET /orders payload. -/
def sampleOrders : List Order := [sampleOrder1, sampleOrder2]

/-- The OrderList world after the initial fetch resolves with
sampleOrders while still freshly initialized. -/
def oWorldAfterResolve : OWorld :=
  { initOWorld with
    state := { initOrderListState with
      orders := sampleOrders, total := 2900, loading := false } }

/-- The UserProfile world right after mounting with id prop 7. -/
def uWorldMounted : UWorld :=
  { propsId := "7", phase := Phase.mounted,
    state := { initUserProfileState with loading := true },
    issued := [⟨Method.GET, ApiPath.userId "7"⟩] }

/-- A sample user payload. -/
def sampleUser : User :=
  { firstName := "Jane", lastName := "Doe", email := "jane@example.com",
    birthDate := "1990-01-01", status := "active",
    bio := "<img src=x onerror=alert(1)>",
    items := [{ id := "i1", name := "장난감", price := 10, isActive := true },
              { id := "i2", name := "사료", price := 20, isActive := false }] }

/-- The sample user with a falsy firstName. -/
def sampleUserNoFirst : User := { sampleUser with firstName := "" }

/-- The sample user with a falsy lastName. -/
def sampleUserNoLast : User := { sampleUser with lastName := "" }

/-- A UserProfile state rendering the sample user. -/
def sampleProfileState : UserProfileState :=
  { userData := some sampleUser, loading := false,
    items := sampleUser.items, error := "", count := 3 }

/-! ## Invariant machinery -/

/-- A property preserved by every OrderList step holds in every world
an event list reaches. -/
theorem runOFrom_invariant (P : OWorld → Prop)
    (hstep : ∀ e w w1, stepO e w = some w1 → P w → P w1) :
    ∀ (evs : List OEvent) (w w1 : OWorld),
      runOFrom w evs = some w1 → P w → P w1 := by
  intro evs
  induction evs with
  | nil =>
    intro w w1 h hP
    simp only [runOFrom] at h
    injection h with h
    subst h
    exact hP
  | cons e es ih =>
    intro w w1 h hP
    simp only [runOFrom] at h
    cases hs : stepO e w with
    | none => rw [hs] at h; exact Option.noConfusion h
    | some wmid => rw [hs] at h; exact ih wmid w1 h (hstep e w wmid hs hP)

/-- A property preserved by every UserProfile step holds in every
world an event list reaches. -/
theorem runUFrom_invariant (P : UWorld → Prop)
    (hstep : ∀ e w w1, stepU e w = some w1 → P w → P w1) :
    ∀ (evs : List UEvent) (w w1 : UWorld),
      runUFrom w evs = some w1 → P w → P w1 := by
  intro evs
  induction evs with
  | nil =>
    intro w w1 h hP
    simp only [runUFrom] at h
    injection h with h
    subst h
    exact hP
  | cons e es ih =>
    intro w w1 h hP
    simp only [runUFrom] at h
    cases hs : stepU e w with
    | none => rw [hs] at h; exact Option.noConfusion h
    | some wmid => rw [hs] at h; exact ih wmid w1 h (hstep e w wmid hs hP)

/-- No OrderList step changes the error hook: setError is never
called. -/
theorem stepO_error_eq : ∀ e w w1, stepO e w = some w1 →
    w1.state.error = w.state.error := by
  intro e w w1 h
  cases e <;> simp only [stepO] at h
  all_goals try split at h
  all_goals try exact Option.noConfusion h
  all_goals injection h with h
  all_goals subst h
  all_goals rfl

/-- No UserProfile step changes the error hook: setError is never
called. -/
theorem stepU_error_eq : ∀ e w w1, stepU e w = some w1 →
    w1.state.error = w.state.error := by
  intro e w w1 h
  cases e <;> simp only [stepU] at h
  all_goals try split at h
  all_goals try exact Option.noConfusion h
  all_goals injection h with h
  all_goals subst h
  all_goals rfl

/-- Every OrderList step preserves the interval-count invariant: no
timer before mount, exactly one uncancelled timer from mount on —
also after unmount, since no cleanup is registered. -/
theorem stepO_interval_inv : ∀ e w w1, stepO e w = some w1 →
    ((w.phase = Phase.notMounted ∧ w.activeIntervals = 0) ∨
     (w.phase ≠ Phase.notMounted ∧ w.activeIntervals = 1)) →
    ((w1.phase = Phase.notMounted ∧ w1.activeIntervals = 0) ∨
     (w1.phase ≠ Phase.notMounted ∧ w1.activeIntervals = 1)) := by
  intro e w w1 h hP
  cases e <;> simp only [stepO] at h
  all_goals try split at h
  all_goals try exact Option.noConfusion h
  all_goals injection h with h
  all_goals subst h
  all_goals simp_all

/-- Every request an OrderList step appends to the log hits one of
the five documented endpoints. -/
theorem stepO_allowed : ∀ e w w1, stepO e w = some w1 →
    (∀ r ∈ w.issued, allowedEndpoint r = true) →
    (∀ r ∈ w1.issued, allowedEndpoint r = true) := by
  intro e w w1 h hP
  cases e <;> simp only [stepO] at h
  all_goals try split at h
  all_goals try exact Option.noConfusion h
  all_goals injection h with h
  all_goals subst h
  all_goals intro r hr
  all_goals first
    | exact hP r hr
    | (rcases List.mem_append.mp hr with hr1 | hr2
       · exact hP r hr1
       · try simp only [handleDelete] at hr2
         rw [List.mem_singleton] at hr2
         subst hr2
         rfl)

/-- Every request a UserProfile step appends to the log hits one of
the five documented endpoints (a helper for the endpoint claim). -/
theorem stepU_allowed : ∀ e w w1, stepU e w = some w1 →
    (∀ r ∈ w.issued, allowedEndpoint r = true) →
    (∀ r ∈ w1.issued, allowedEndpoint r = true) := by
  intro e w w1 h hP
  cases e <;> simp only [stepU] at h
  all_goals try split at h
  all_goals try exact Option.noConfusion h
  all_goals injection h with h
  all_goals subst h
  all_goals intro r hr
  all_goals first
    | exact hP r hr
    | (rcases List.mem_append.mp hr with hr1 | hr2
       · exact hP r hr1
       · try simp only [handleDelete] at hr2
         rw [List.mem_singleton] at hr2
         subst hr2
         rfl)

/-! ## Claims -/

/-- Claim C1: getStatusColor contains duplicate branches guarding
status == "pending"; for every status string it returns the value of
the first matching branch — orange for pending, green for completed,
red for cancelled, gray otherwise — and the second pending branch
value yellow is returned for no input. -/
theorem claim_C1 (status : String) :
    getStatusColor status =
      (if status = "pending" then "orange"
       else if status = "completed" then "green"
       else if status = "cancelled" then "red"
       else "gray")
    ∧ getStatusColor status ≠ "yellow" := by
  constructor
  · unfold getStatusColor
    split_ifs <;> rfl
  · unfold getStatusColor
    split_ifs <;> decide

/-- Claim C2, refuted as stated: it is false that the component
polling via an uncancelled interval is a different component from the
one that re-subscribes its fetch on every render — OrderList itself
does both. -/
theorem claim_C2_counterexample :
    ¬ (pollsViaUncancelledInterval Component.orderList = true →
       resubscribesFetchEveryRender Component.orderList = false) := by
  decide

/-- Claim C2 as amended: the 1-second polling interval registered in
the OrderList mount effect is never cancelled — the effect returns no
cleanup, so in every reachable world after mount exactly one interval
stays active, including after unmount — and the polling component is
the same component, OrderList, that re-subscribes its fetch on every
render. -/
theorem claim_C2 :
    (∀ evs w, runOrderList evs = some w → w.phase ≠ Phase.notMounted →
      w.activeIntervals = 1)
    ∧ pollsViaUncancelledInterval Component.orderList = true
    ∧ resubscribesFetchEveryRender Component.orderList = true := by
  refine ⟨?_, by decide, by decide⟩
  intro evs w h hm
  have hinv := runOFrom_invariant
    (fun w => (w.phase = Phase.notMounted ∧ w.activeIntervals = 0) ∨
      (w.phase ≠ Phase.notMounted ∧ w.activeIntervals = 1))
    stepO_interval_inv evs initOWorld w h (Or.inl ⟨rfl, rfl⟩)
  rcases hinv with ⟨h1, _⟩ | ⟨_, h2⟩
  · exact absurd h1 hm
  · exact h2

/-- Witness for claim C2: mounting and then unmounting an OrderList
reaches a concrete world that is past mount and still holds one live
interval. -/
theorem claim_C2_witness :
    runOrderList [OEvent.mount, OEvent.unmount] = some oWorldMountUnmount
    ∧ oWorldMountUnmount.phase ≠ Phase.notMounted
    ∧ oWorldMountUnmount.activeIntervals = 1 :=
  ⟨rfl, by decide,
   claim_C2.1 [OEvent.mount, OEvent.unmount] oWorldMountUnmount rfl (by decide)⟩

/-- Claim C3: the OrderList initial-fetch effect has no dependency
array, so every re-render step — only enabled while mounted — sets
loading to true and issues GET /orders again; and the mount plus one
re-render trace has already issued the fetch twice, so the fetch is
not limited to the mount step. -/
theorem claim_C3 :
    (∀ w w1, stepO OEvent.rerender w = some w1 →
      w.phase = Phase.mounted ∧ w1.state.loading = true ∧
      w1.issued = w.issued ++ [getOrdersReq])
    ∧ (runOrderList [OEvent.mount, OEvent.rerender]).map OWorld.issued
        = some [getOrdersReq, getOrdersReq] := by
  constructor
  · intro w w1 h
    simp only [stepO] at h
    split at h
    · injection h with h
      subst h
      exact ⟨by assumption, rfl, rfl⟩
    · exact Option.noConfusion h
  · rfl

/-- Witness for claim C3: a re-render of the concrete just-mounted
world issues a second GET /orders and leaves loading true. -/
theorem claim_C3_witness :
    stepO OEvent.rerender oWorldMounted = some oWorldMountedRerendered
    ∧ oWorldMounted.phase = Phase.mounted
    ∧ oWorldMountedRerendered.state.loading = true
    ∧ oWorldMountedRerendered.issued = oWorldMounted.issued ++ [getOrdersReq] :=
  ⟨rfl, claim_C3.1 oWorldMounted oWorldMountedRerendered rfl⟩

/-- Claim C4: the error hook is never set — in every reachable
OrderList world it is still none, in every reachable UserProfile
world it is still the empty string, and the UserProfile error early
return is therefore unreachable. -/
theorem claim_C4 :
    (∀ evs w, runOrderList evs = some w → w.state.error = none)
    ∧ (∀ pid evs w, runUserProfile pid evs = some w →
        w.state.error = "" ∧
        ∀ msg, renderUserProfile w.state ≠ UPView.errorView msg) := by
  constructor
  · intro evs w h
    exact runOFrom_invariant (fun w => w.state.error = none)
      (fun e w w1 hs hP => (stepO_error_eq e w w1 hs).trans hP)
      evs initOWorld w h rfl
  · intro pid evs w h
    have herr : w.state.error = "" :=
      runUFrom_invariant (fun w => w.state.error = "")
        (fun e w w1 hs hP => (stepU_error_eq e w w1 hs).trans hP)
        evs (initUWorld pid) w h rfl
    refine ⟨herr, ?_⟩
    intro msg
    unfold renderUserProfile
    rw [herr]
    split_ifs with h1 h2
    · simp
    · exact absurd rfl h2
    · simp

/-- Witness for claim C4: the concrete just-mounted worlds of both
components still hold their initial error values, and the mounted
UserProfile state does not render the error view. -/
theorem claim_C4_witness :
    runOrderList [OEvent.mount] = some oWorldMounted
    ∧ oWorldMounted.state.error = none
    ∧ runUserProfile "7" [UEvent.mount] = some uWorldMounted
    ∧ uWorldMounted.state.error = ""
    ∧ renderUserProfile uWorldMounted.state ≠ UPView.errorView "boom" :=
  ⟨rfl, claim_C4.1 [OEvent.mount] oWorldMounted rfl, rfl,
   (claim_C4.2 "7" [UEvent.mount] uWorldMounted rfl).1,
   (claim_C4.2 "7" [UEvent.mount] uWorldMounted rfl).2 "boom"⟩

/-- Claim C5: no fetch chain attaches a rejection handler; every
rejection event of either machine changes nothing, and mounting sets
loading to true before the fetch, so a failed initial fetch leaves
loading stuck at true and records no error message. -/
theorem claim_C5 :
    (∀ f ∈ allFetchCalls, f.hasRejectionHandler = false)
    ∧ (∀ w, stepO OEvent.fetchOrdersReject w = some w
        ∧ stepO OEvent.pollReject w = some w
        ∧ stepO OEvent.searchReject w = some w)
    ∧ (∀ w, stepU UEvent.fetchUserReject w = some w
        ∧ stepU UEvent.deleteItemReject w = some w)
    ∧ (∀ w w1, stepO OEvent.mount w = some w1 → w1.state.loading = true)
    ∧ (∀ w w1, stepU UEvent.mount w = some w1 → w1.state.loading = true) := by
  refine ⟨by decide, fun w => ⟨rfl, rfl, rfl⟩, fun w => ⟨rfl, rfl⟩, ?_, ?_⟩
  · intro w w1 h
    simp only [stepO] at h
    split at h
    · injection h with h
      subst h
      rfl
    · exact Option.noConfusion h
  · intro w w1 h
    simp only [stepU] at h
    split at h
    · injection h with h
      subst h
      rfl
    · exact Option.noConfusion h

/-- Witness for claim C5: the OrderList initial-fetch call site has
no rejection handler, a rejection leaves the initial world unchanged,
and the concrete just-mounted worlds have loading = true. -/
theorem claim_C5_witness :
    ({ component := Component.orderList, site := "initial-fetch effect",
       method := Method.GET, hasRejectionHandler := false } : FetchCall).hasRejectionHandler
        = false
    ∧ stepO OEvent.fetchOrdersReject initOWorld = some initOWorld
    ∧ oWorldMounted.state.loading = true
    ∧ uWorldMounted.state.loading = true :=
  ⟨claim_C5.1 _ (by decide),
   (claim_C5.2.1 initOWorld).1,
   claim_C5.2.2.2.1 initOWorld oWorldMounted rfl,
   claim_C5.2.2.2.2 (initUWorld "7") uWorldMounted rfl⟩

/-- Claim C6: every request either component ever issues, in every
reachable world, targets one of the five documented endpoints:
GET /orders, DELETE /orders/:id, GET /orders/search, GET /users/:id,
DELETE /items/:id. -/
theorem claim_C6 :
    (∀ evs w, runOrderList evs = some w →
      ∀ r ∈ w.issued, allowedEndpoint r = true)
    ∧ (∀ pid evs w, runUserProfile pid evs = some w →
        ∀ r ∈ w.issued, allowedEndpoint r = true) := by
  constructor
  · intro evs w h
    exact runOFrom_invariant (fun w => ∀ r ∈ w.issued, allowedEndpoint r = true)
      stepO_allowed evs initOWorld w h
      (fun r hr => absurd hr (List.not_mem_nil r))
  · intro pid evs w h
    exact runUFrom_invariant (fun w => ∀ r ∈ w.issued, allowedEndpoint r = true)
      stepU_allowed evs (initUWorld pid) w h
      (fun r hr => absurd hr (List.not_mem_nil r))

/-- Witness for claim C6: in the concrete just-mounted worlds, the
single issued request of each component hits a documented endpoint. -/
theorem claim_C6_witness :
    runOrderList [OEvent.mount] = some oWorldMounted
    ∧ allowedEndpoint getOrdersReq = true
    ∧ runUserProfile "7" [UEvent.mount] = some uWorldMounted
    ∧ allowedEndpoint ⟨Method.GET, ApiPath.userId "7"⟩ = true :=
  ⟨rfl, claim_C6.1 [OEvent.mount] oWorldMounted rfl getOrdersReq (by decide),
   rfl, claim_C6.2 "7" [UEvent.mount] uWorldMounted rfl
          ⟨Method.GET, ApiPath.userId "7"⟩ (by decide)⟩

/-- rawHtmls distributes over concatenation of node lists. -/
theorem rawHtmls_append (a b : List Node) :
    rawHtmls (a ++ b) = rawHtmls a ++ rawHtmls b := by
  simp [rawHtmls, List.filterMap_append]

/-- The sub-item rows of an order card contain no
dangerouslySetInnerHTML node. -/
theorem rawHtmls_orderItemRows (its : List OrderItem) :
    rawHtmls ((its.map orderItemRow).flatten) = [] := by
  induction its with
  | nil => rfl
  | cons it its ih =>
    simp only [List.map_cons, List.flatten_cons, rawHtmls_append, ih]
    rfl

/-- One order card injects exactly the memo of the order. -/
theorem rawHtmls_orderCard (o : Order) :
    rawHtmls (renderOrderCard o) = [o.memo] := by
  simp only [renderOrderCard, rawHtmls_append, rawHtmls_orderItemRows]
  rfl

/-- The order cards inject exactly the memos, in order. -/
theorem rawHtmls_orderCards (os : List Order) :
    rawHtmls ((os.map renderOrderCard).flatten) = os.map Order.memo := by
  induction os with
  | nil => rfl
  | cons o os ih =>
    simp only [List.map_cons, List.flatten_cons, rawHtmls_append,
      rawHtmls_orderCard, ih]
    rfl

/-- The item rows of the profile contain no dangerouslySetInnerHTML
node. -/
theorem rawHtmls_userItemRows (its : List Item) :
    rawHtmls ((its.map renderItemRow).flatten) = [] := by
  induction its with
  | nil => rfl
  | cons it its ih =>
    simp only [List.map_cons, List.flatten_cons, rawHtmls_append, ih]
    rfl

/-- Claim C7: both components hand unvalidated network strings
verbatim to dangerouslySetInnerHTML — the OrderList render injects
exactly the memo of every order in the state, and the UserProfile
render of a loaded profile injects exactly the bio of the user. -/
theorem claim_C7 :
    (∀ s : OrderListState,
      rawHtmls (renderOrderList s) = s.orders.map Order.memo)
    ∧ (∀ s u, s.loading = false → s.error = "" → s.userData = some u →
        viewRawHtmls (renderUserProfile s) = [u.bio]) := by
  constructor
  · intro s
    unfold renderOrderList
    rw [rawHtmls_append, rawHtmls_append, rawHtmls_orderCards]
    cases hl : s.loading <;> simp [rawHtmls]
  · intro s u hl he hu
    unfold renderUserProfile
    rw [hl, he, hu]
    simp only [viewRawHtmls, rawHtmls_append, rawHtmls_userItemRows, rawHtmls]
    simp [rawHtmls]
    intro a _ n hn
    simp only [renderItemRow, List.mem_cons, List.not_mem_nil, or_false] at hn
    rcases hn with rfl | rfl | rfl <;> rfl

/-- Witness for claim C7: the render of the concrete fetched order
list injects the two sample memos, and the render of the sample
profile injects the sample bio string verbatim. -/
theorem claim_C7_witness :
    rawHtmls (renderOrderList oWorldAfterResolve.state)
      = oWorldAfterResolve.state.orders.map Order.memo
    ∧ viewRawHtmls (renderUserProfile sampleProfileState) = [sampleUser.bio] :=
  ⟨claim_C7.1 oWorldAfterResolve.state,
   claim_C7.2 sampleProfileState sampleUser rfl rfl rfl⟩

/-- The for-loop accumulation over the fetched orders equals the sum
of price * quantity over the list. -/
theorem foldl_price_qty_sum (l : List Order) :
    ∀ init : Int,
      l.foldl (fun t o => t + o.price * o.quantity) init
        = init + (l.map (fun o => o.price * o.quantity)).sum := by
  induction l with
  | nil => intro init; simp
  | cons o os ih =>
    intro init
    simp only [List.foldl_cons, List.map_cons, List.sum_cons, ih]
    ring

/-- Claim C8: when the OrderList initial fetch resolves with data,
the step stores data itself into orders and stores into total the sum
over the list of price * quantity (0 for the empty list, since the
sum of the empty list is 0). -/
theorem claim_C8 :
    ∀ w data w1, stepO (OEvent.fetchOrdersResolve data) w = some w1 →
      w1.state.orders = data
      ∧ w1.state.total = (data.map (fun o => o.price * o.quantity)).sum := by
  intro w data w1 h
  simp only [stepO] at h
  injection h with h
  subst h
  refine ⟨rfl, ?_⟩
  simp [computeTotal, foldl_price_qty_sum]

/-- Witness for claim C8: resolving the initial fetch with the two
sample orders stores them and the total 1000*2 + 300*3 = 2900. -/
theorem claim_C8_witness :
    stepO (OEvent.fetchOrdersResolve sampleOrders) initOWorld
      = some oWorldAfterResolve
    ∧ oWorldAfterResolve.state.orders = sampleOrders
    ∧ oWorldAfterResolve.state.total
        = (sampleOrders.map (fun o => o.price * o.quantity)).sum :=
  ⟨rfl,
   (claim_C8 initOWorld sampleOrders oWorldAfterResolve rfl).1,
   (claim_C8 initOWorld sampleOrders oWorldAfterResolve rfl).2⟩

/-- Claim C9: getFullName is a total case analysis on userData —
Loading... for null, Unknown for a falsy firstName, the firstName
alone when only it is truthy, and firstName-space-lastName when both
are truthy. -/
theorem claim_C9 :
    getFullName none = "Loading..."
    ∧ (∀ u : User, u.firstName = "" → getFullName (some u) = "Unknown")
    ∧ (∀ u : User, u.firstName ≠ "" → u.lastName = "" →
        getFullName (some u) = u.firstName)
    ∧ (∀ u : User, u.firstName ≠ "" → u.lastName ≠ "" →
        getFullName (some u) = u.firstName ++ " " ++ u.lastName) := by
  refine ⟨rfl, ?_, ?_, ?_⟩
  · intro u h
    simp [getFullName, h]
  · intro u h1 h2
    simp [getFullName, h1, h2]
  · intro u h1 h2
    simp [getFullName, h1, h2]

/-- Witness for claim C9: the three guarded cases evaluated on the
sample users. -/
theorem claim_C9_witness :
    getFullName (some sampleUserNoFirst) = "Unknown"
    ∧ getFullName (some sampleUserNoLast) = sampleUserNoLast.firstName
    ∧ getFullName (some sampleUser)
        = sampleUser.firstName ++ " " ++ sampleUser.lastName :=
  ⟨claim_C9.2.1 sampleUserNoFirst rfl,
   claim_C9.2.2.1 sampleUserNoLast (by decide) rfl,
   claim_C9.2.2.2 sampleUser (by decide) (by decide)⟩

/-- Claim C10: handleDelete issues exactly DELETE /items/:itemId and
replaces items with the filter of the captured list that keeps
exactly the items whose id differs from itemId; userData, loading,
error and count are untouched. -/
theorem claim_C10 :
    ∀ (captured : List Item) (itemId : String) (s : UserProfileState),
      (handleDelete captured itemId s).1
        = [⟨Method.DELETE, ApiPath.itemId itemId⟩]
      ∧ (handleDelete captured itemId s).2.items
          = captured.filter (fun it => it.id ≠ itemId)
      ∧ (∀ it : Item, it ∈ (handleDelete captured itemId s).2.items ↔
          (it ∈ captured ∧ it.id ≠ itemId))
      ∧ (handleDelete captured itemId s).2.userData = s.userData
      ∧ (handleDelete captured itemId s).2.loading = s.loading
      ∧ (handleDelete captured itemId s).2.error = s.error
      ∧ (handleDelete captured itemId s).2.count = s.count := by
  intro captured itemId s
  refine ⟨rfl, rfl, ?_, rfl, rfl, rfl, rfl⟩
  intro it
  simp [handleDelete, List.mem_filter]
